import Mathlib

/-!
Verification of the Agent Registry & Discovery client
(`examples/python_client/ai_workflow_client.py` and
`examples/python_client/correlation_middleware.py`) against its
natural-language specification.

The Python client is embedded shallowly: each client operation becomes a pure
Lean function over an explicit description of the environment (the HTTP
responses or exceptions the network would produce).  Exceptions become values
of an `Exc` type whose constructors mirror the Python exception classes the
client can raise or let escape.  The registry server itself (the Rust core) is
not among the visible sources; the few store-side operations some claims need
are modelled from the specification and marked as such in their doc comments.
-/

namespace AIWorkflow

/-- Payload dictionaries (`Dict[str, Any]` in the Python source) are opaque to
the client: it never inspects their values, so they are abstracted as
string-keyed association lists. -/
abbrev Json := List (String × String)

/-- The exception classes a client operation can surface, mirroring the Python
hierarchy in `ai_workflow_client.py` (the four `AIWorkflowError` subclasses)
together with the library exceptions that can escape the client uncaught:
`asyncio.TimeoutError` (total client timeout), `json.JSONDecodeError`
(`response.json()` on an invalid JSON body served with a JSON content type),
`pydantic.ValidationError` (response body not matching a response model),
`ValueError` (`UUID(...)` on a non-UUID id string) and a raw
`aiohttp.ClientError` escaping a call site that has no `except` around it. -/
inductive Exc where
  | registrationError (msg : String)
  | heartbeatError (msg : String)
  | serviceDiscoveryError (msg : String)
  | aiWorkflowError (msg : String)
  | timeoutError
  | jsonDecodeError
  | pydanticValidationError
  | valueError
  | aiohttpError (msg : String)
deriving DecidableEq, Repr

/-- The class (type) of an exception, with the message stripped: what a caller
can discriminate on with `except SomeClass` / `isinstance`. -/
inductive ExcKind where
  | registration
  | heartbeat
  | serviceDiscovery
  | aiWorkflow
  | timeout
  | jsonDecode
  | pydanticValidation
  | value
  | aiohttp
deriving DecidableEq, Repr

def Exc.kind : Exc → ExcKind
  | .registrationError _ => .registration
  | .heartbeatError _ => .heartbeat
  | .serviceDiscoveryError _ => .serviceDiscovery
  | .aiWorkflowError _ => .aiWorkflow
  | .timeoutError => .timeout
  | .jsonDecodeError => .jsonDecode
  | .pydanticValidationError => .pydanticValidation
  | .valueError => .value
  | .aiohttpError _ => .aiohttp

/-- The exception class of the outcome of an operation, `none` on success. -/
def excKindOf {α : Type} : Except Exc α → Option ExcKind
  | .error e => some e.kind
  | .ok _ => none

/-- Whether an operation returned normally rather than raising. -/
def isOkB {α : Type} : Except Exc α → Bool
  | .ok _ => true
  | .error _ => false

/-- Result of calling `response.json()` on a received response, on top of a
parse result of type `α`: `contentTypeError` is `aiohttp.ContentTypeError`
(a subclass of `aiohttp.ClientError`) raised when the response is not served
as JSON; `decodeError` is `json.JSONDecodeError` (not an `aiohttp.ClientError`)
raised when the body is not valid JSON. -/
inductive BodyParse (α : Type) where
  | ok (v : α)
  | contentTypeError
  | decodeError
deriving DecidableEq, Repr

/-- Outcome of one outbound HTTP request made through the aiohttp session:
either a response arrived (with its status, the result of reading its body as
JSON and the result of reading it as text), or the request raised an
`aiohttp.ClientError` (connection failures and connect timeouts), or the
session-wide total timeout fired, raising `asyncio.TimeoutError`. -/
inductive HttpResult (α : Type) where
  | response (status : Nat) (body : BodyParse α) (text : String)
  | clientError (msg : String)
  | timeout
deriving DecidableEq, Repr

/-- One agent entry of the registry listing returned by
`GET /registry/agents`, restricted to the fields the client reads. -/
structure Agent where
  name : String
  endpoint : String
deriving DecidableEq, Repr

/-- Outcome of the registry-listing request issued by
`_get_service_endpoint` (which wraps it in no `try`, so a raised
`aiohttp.ClientError` escapes as is). -/
inductive RegistryListOutcome where
  | ok (agents : List Agent)
  | badStatus (status : Nat) (text : String)
  | clientError (msg : String)
deriving DecidableEq, Repr

/-- The `for agent in agents: if agent.get("name") == service_name: return
agent.get("endpoint")` loop of `_get_service_endpoint`: the endpoint of the
first agent in listing order whose name matches. -/
def findAgentEndpoint : List Agent → String → Option String
  | [], _ => none
  | a :: rest, n => if a.name == n then some a.endpoint else findAgentEndpoint rest n

/-- `AIWorkflowClient._get_service_endpoint`: fetch the registry listing and
scan it for the first agent with the requested name; `ServiceDiscoveryError`
when the name is absent or the registry answered with a non-200 status. -/
def get_service_endpoint (listing : RegistryListOutcome) (service_name : String) :
    Except Exc String :=
  match listing with
  | .ok agents =>
      match findAgentEndpoint agents service_name with
      | some e => .ok e
      | none => .error (.serviceDiscoveryError ("Service " ++ service_name ++ " not found"))
  | .badStatus status text =>
      .error (.serviceDiscoveryError
        ("Failed to get service list: HTTP " ++ toString status ++ " - " ++ text))
  | .clientError msg => .error (.aiohttpError msg)

/-- `AIWorkflowClient.call_service`: resolve the endpoint first (outside the
`try`), then issue one outbound POST to it.  The second component records
whether that outbound request to the target service was issued at all.
Per the `except aiohttp.ClientError` clause: a connection failure and a
`ContentTypeError` from `response.json()` are wrapped into `AIWorkflowError`;
a non-200 status raises `AIWorkflowError` directly; an `asyncio.TimeoutError`
and a `json.JSONDecodeError` are not `aiohttp.ClientError`s and escape raw. -/
def call_service (listing : RegistryListOutcome) (service_name method : String)
    (callResult : HttpResult Json) : Except Exc Json × Bool :=
  match get_service_endpoint listing service_name with
  | .error e => (.error e, false)
  | .ok _endpoint =>
      match callResult with
      | .response status body text =>
          if status = 200 then
            match body with
            | .ok v => (.ok v, true)
            | .contentTypeError =>
                (.error (.aiWorkflowError
                  ("Network error calling " ++ service_name ++ "/" ++ method)), true)
            | .decodeError => (.error .jsonDecodeError, true)
          else
            (.error (.aiWorkflowError
              ("Service call failed: " ++ service_name ++ "/" ++ method ++
                " returned " ++ toString status ++ ": " ++ text)), true)
      | .clientError msg =>
          (.error (.aiWorkflowError
            ("Network error calling " ++ service_name ++ "/" ++ method ++ ": " ++ msg)), true)
      | .timeout => (.error .timeoutError, true)

/-- The mutable client fields the claims are about: `self.agent_id`,
`self._registered` and whether `self.heartbeat_task` has been created. -/
structure ClientState where
  agent_id : Option String
  registered : Bool
  heartbeat_started : Bool
deriving DecidableEq, Repr

/-- A fresh client, as built by `AIWorkflowClient.__init__`. -/
def initialState : ClientState :=
  { agent_id := none, registered := false, heartbeat_started := false }

/-- Result of parsing a 2xx registration response body beyond raw JSON:
`valid id` means `RegistrationResponse(**data)` succeeded and `UUID(id)`
parsed; `badUUID` means the model validated but the id is not a UUID, so
`UUID(...)` raises `ValueError`; `schemaError` means pydantic raised
`ValidationError` (neither is an `aiohttp.ClientError`, so both escape the
`except` clause of `register`). -/
inductive RegParse where
  | valid (id : String)
  | badUUID (id : String)
  | schemaError
deriving DecidableEq, Repr

/-- `AIWorkflowClient.register`: POST the registration; on status 200 or 201
parse the body, store `agent_id` and set `_registered`; on any other status
raise `RegistrationError`; on `aiohttp.ClientError` (including a
`ContentTypeError` while reading the success body) wrap into
`RegistrationError`.  Returns the registered id (standing for the returned
`RegistrationResponse`) and the new client state. -/
def register (st : ClientState) (r : HttpResult RegParse) :
    Except Exc String × ClientState :=
  match r with
  | .response status body text =>
      if status = 200 ∨ status = 201 then
        match body with
        | .ok (.valid id) => (.ok id, { st with agent_id := some id, registered := true })
        | .ok (.badUUID _) => (.error .valueError, st)
        | .ok .schemaError => (.error .pydanticValidationError, st)
        | .contentTypeError =>
            (.error (.registrationError "Network error during registration"), st)
        | .decodeError => (.error .jsonDecodeError, st)
      else
        (.error (.registrationError
          ("Registration failed with status " ++ toString status ++ ": " ++ text)), st)
  | .clientError msg =>
      (.error (.registrationError ("Network error during registration: " ++ msg)), st)
  | .timeout => (.error .timeoutError, st)

/-- `AIWorkflowClient.send_heartbeat`: refuse with `HeartbeatError` when
`agent_id` is unset; otherwise POST the heartbeat and return `true` on status
200, `false` on any other status or on `aiohttp.ClientError` (both merely
logged).  The outer `Bool` records whether the HTTP request was issued. -/
def send_heartbeat (st : ClientState) (r : HttpResult Unit) :
    (Except Exc Bool × ClientState) × Bool :=
  match st.agent_id with
  | none => ((.error (.heartbeatError "Service not registered - cannot send heartbeat"), st),
             false)
  | some _ =>
      match r with
      | .response status _ _ =>
          if status = 200 then ((.ok true, st), true) else ((.ok false, st), true)
      | .clientError _ => ((.ok false, st), true)
      | .timeout => ((.error .timeoutError, st), true)

/-- `AIWorkflowClient.start_heartbeat`: refuse with `HeartbeatError` when the
client is not registered; otherwise create the background heartbeat task. -/
def start_heartbeat (st : ClientState) : Except Exc Unit × ClientState :=
  if st.registered then (.ok (), { st with heartbeat_started := true })
  else (.error (.heartbeatError "Service must be registered before starting heartbeat"), st)

/-- What one iteration of the background `heartbeat_loop` encounters:
the sleep-and-send ran normally (`ok` — a heartbeat returning `False` is still
a normal return), or it raised a non-cancellation exception (`exc`), or the
task was cancelled (`asyncio.CancelledError`). -/
inductive TickOutcome where
  | ok
  | exc (msg : String)
  | cancelled
deriving DecidableEq, Repr

/-- The `while True` body of `heartbeat_loop`, run against a finite schedule
of tick outcomes.  Returns the exception escaping the loop (`none` when none
does) and whether the loop exited through its cancellation `break`.
`except asyncio.CancelledError: break`; `except Exception: log and continue`. -/
def heartbeat_loop : List TickOutcome → Option String × Bool
  | [] => (none, false)
  | .ok :: rest => heartbeat_loop rest
  | .exc _ :: rest => heartbeat_loop rest
  | .cancelled :: _ => (none, true)

/-- Exact-key lookup in a header list (`headers.get(name)` on the abstracted
header dictionary; header-name case normalisation is outside the model, the
claims only ever use one spelling of each header name). -/
def headerGet : List (String × String) → String → Option String
  | [], _ => none
  | (k, v) :: rest, name => if k == name then some v else headerGet rest name

/-- Dictionary assignment `headers[name] = value`: replace the value of an
existing key, append otherwise. -/
def setHeader : List (String × String) → String → String → List (String × String)
  | [], name, value => [(name, value)]
  | (k, v) :: rest, name, value =>
      if k == name then (k, value) :: rest else (k, v) :: setHeader rest name value

/-- `CORRELATION_ID_HEADERS` of `correlation_middleware.py`. -/
def CORRELATION_ID_HEADERS : List String :=
  ["X-Correlation-ID", "X-Request-ID", "X-Trace-ID", "Correlation-ID", "Request-ID"]

/-- The character set of `_is_valid_correlation_id` (the Python source builds
it from one string literal of the lower-case letters, the upper-case letters,
the digits, the dash, the underscore and the dot). -/
def allowed_chars : List Char :=
  "abcdefghijklmnopqrstuvwxyzABCDEFGHIJKLMNOPQRSTUVWXYZ0123456789-_.".toList

/-- `CorrelationIdMiddleware._is_valid_correlation_id`: non-empty (the
`not correlation_id` check; the `isinstance` check always passes for the
string inputs modelled here), length between 1 and 128, and every character
drawn from `allowed_chars`. -/
def is_valid_correlation_id (s : String) : Bool :=
  if s.isEmpty then false
  else if s.length < 1 ∨ s.length > 128 then false
  else s.toList.all (fun c => allowed_chars.contains c)

/-- `CorrelationIdMiddleware._get_correlation_id_from_request`, with the
header-name iteration made explicit: scan `CORRELATION_ID_HEADERS` in order;
the first header present with a truthy (non-empty) value decides — it is
returned if validation is off or it passes validation, and the scan returns
`None` (without trying later headers) if it fails validation. -/
def firstCorrelationId (validate : Bool) (reqHeaders : List (String × String)) :
    List String → Option String
  | [] => none
  | h :: rest =>
      match headerGet reqHeaders h with
      | none => firstCorrelationId validate reqHeaders rest
      | some cid =>
          if cid == "" then firstCorrelationId validate reqHeaders rest
          else if validate ∧ ¬ is_valid_correlation_id cid then none
          else some cid

def get_correlation_id_from_request (validate : Bool)
    (reqHeaders : List (String × String)) : Option String :=
  firstCorrelationId validate reqHeaders CORRELATION_ID_HEADERS

/-- The observable outcome of `CorrelationIdMiddleware.dispatch`: the
correlation id placed in context and request state, and the headers of the
returned response. -/
structure DispatchResult where
  correlation_id : String
  response_headers : List (String × String)
deriving DecidableEq, Repr

/-- `CorrelationIdMiddleware.dispatch`: take the id supplied by the request
(if any survives validation), otherwise generate a fresh one (`fresh` stands
for the value `self.generator()` would produce); always call the inner
application (`appHeaders` are the headers of its response) and echo the chosen
id in the response under `headerName`.  No branch rejects the request. -/
def dispatch (validate : Bool) (headerName fresh : String)
    (reqHeaders appHeaders : List (String × String)) : DispatchResult :=
  let supplied := get_correlation_id_from_request validate reqHeaders
  let cid := match supplied with
    | none => fresh
    | some c => if c == "" then fresh else c
  { correlation_id := cid, response_headers := setHeader appHeaders headerName cid }

/-- `inject_correlation_id_header`: use the explicitly passed id if any,
falling back to the context variable; add the `X-Correlation-ID` header only
when the resulting id is truthy (non-`None` and non-empty) — otherwise the
headers are returned unchanged. -/
def inject_correlation_id_header (explicit ctx : Option String)
    (headers : List (String × String)) : List (String × String) :=
  let cid := match explicit with
    | none => ctx
    | some c => some c
  match cid with
  | none => headers
  | some c => if c == "" then headers else setHeader headers "X-Correlation-ID" c

/-- The header construction shared by the client's outgoing requests
(`register`, `send_heartbeat`, `discover_services`, `call_service`): start
from the base headers of the call site, run them through
`inject_correlation_id_header` (with no explicit id, reading the context), and
add the `Authorization` header when an auth token is configured. -/
def outgoingHeaders (ctx : Option String) (auth_token : Option String)
    (base : List (String × String)) : List (String × String) :=
  let h := inject_correlation_id_header none ctx base
  match auth_token with
  | some t => setHeader h "Authorization" ("Bearer " ++ t)
  | none => h

/-- The spec-side reading of the restricted correlation-id character set:
letters, digits, dash, underscore and dot. -/
def lowercaseLetters : List Char := "abcdefghijklmnopqrstuvwxyz".toList

def uppercaseLetters : List Char := "ABCDEFGHIJKLMNOPQRSTUVWXYZ".toList

def digitChars : List Char := "0123456789".toList

def specCharOk (c : Char) : Prop :=
  c ∈ lowercaseLetters ∨ c ∈ uppercaseLetters ∨ c ∈ digitChars ∨
    c = '-' ∨ c = '_' ∨ c = '.'

instance (c : Char) : Decidable (specCharOk c) := by
  unfold specCharOk
  infer_instance

/-- Modelled from the spec: the store-side heartbeat update of the Registry
Store lives in the unseen Rust core, not among the visible sources.  Per the
spec, the store accepts a heartbeat only if its timestamp is greater than or
equal to the currently stored `last_seen` (monotonicity enforced at the
store); an accepted heartbeat stores its timestamp, a rejected one leaves
`last_seen` unchanged.  Timestamps are modelled as naturals. -/
def update_last_seen (last_seen ts : Nat) : Nat :=
  if last_seen ≤ ts then ts else last_seen

/-- Modelled from the spec: whether the store accepts a heartbeat timestamp
against the stored `last_seen`. -/
def heartbeat_accepted (last_seen ts : Nat) : Bool :=
  last_seen ≤ ts

/-- The stored `last_seen` after a sequence of heartbeat timestamps is
applied to the store in delivery order. -/
def applyHeartbeats (last_seen : Nat) : List Nat → Nat
  | [] => last_seen
  | ts :: rest => applyHeartbeats (update_last_seen last_seen ts) rest

/-- A record of the Registry Store, restricted to the fields registration
creates that the claims mention. -/
structure StoreRecord where
  id : Nat
  name : String
  endpoint : String
deriving DecidableEq, Repr

/-- The store-side error taxonomy the spec names for registration. -/
inductive StoreErr where
  | validationError
  | notFoundError
deriving DecidableEq, Repr

/-- Modelled from the spec: the store-side `register` operation of the
Registry Store lives in the unseen Rust core, not among the visible sources.
Per the spec it fails with `ValidationError` if `name` or `endpoint` is empty
or `endpoint` is not a well-formed URL (URL well-formedness kept abstract as
the predicate `validUrl`), and on failure creates no record; on success it
allocates a fresh id and inserts the record. -/
def store_register (validUrl : String → Bool) (store : List StoreRecord)
    (nextId : Nat) (name endpoint : String) :
    Except StoreErr StoreRecord × List StoreRecord :=
  if name = "" ∨ endpoint = "" ∨ validUrl endpoint = false then
    (.error .validationError, store)
  else
    let inst : StoreRecord := { id := nextId, name := name, endpoint := endpoint }
    (.ok inst, store ++ [inst])

/-! Helper lemmas shared by the claim theorems. -/

theorem findAgentEndpoint_eq_none {agents : List Agent} {name : String}
    (h : ∀ a ∈ agents, a.name ≠ name) : findAgentEndpoint agents name = none := by
  induction agents with
  | nil => rfl
  | cons a rest ih =>
      have ha : a.name ≠ name := h a (List.mem_cons_self a rest)
      simp only [findAgentEndpoint, beq_iff_eq, if_neg ha]
      exact ih fun b hb => h b (List.mem_cons_of_mem a hb)

theorem findAgentEndpoint_filter_head (name : String) (a : Agent) (rest agents : List Agent)
    (h : agents.filter (fun x => x.name == name) = a :: rest) :
    findAgentEndpoint agents name = some a.endpoint := by
  induction agents with
  | nil => simp at h
  | cons b bs ih =>
      rw [List.filter_cons] at h
      by_cases hb : (b.name == name) = true
      · rw [if_pos hb] at h
        injection h with h1 h2
        subst h1
        simp [findAgentEndpoint, hb]
      · rw [if_neg hb] at h
        simp only [findAgentEndpoint]
        rw [if_neg hb]
        exact ih h

theorem le_update_last_seen (s ts : Nat) : s ≤ update_last_seen s ts := by
  unfold update_last_seen
  split <;> omega

theorem le_applyHeartbeats (l : List Nat) : ∀ s, s ≤ applyHeartbeats s l := by
  induction l with
  | nil => intro s; exact Nat.le_refl s
  | cons ts rest ih =>
      intro s
      exact Nat.le_trans (le_update_last_seen s ts) (ih (update_last_seen s ts))

theorem applyHeartbeats_append (l1 l2 : List Nat) :
    ∀ s, applyHeartbeats s (l1 ++ l2) = applyHeartbeats (applyHeartbeats s l1) l2 := by
  induction l1 with
  | nil => intro s; rfl
  | cons ts rest ih => intro s; simp only [List.cons_append, applyHeartbeats]; exact ih _

theorem headerGet_setHeader (hs : List (String × String)) (name value : String) :
    headerGet (setHeader hs name value) name = some value := by
  induction hs with
  | nil => simp [setHeader, headerGet]
  | cons p rest ih =>
      obtain ⟨k, v⟩ := p
      by_cases hk : (k == name) = true
      · simp [setHeader, headerGet, hk]
      · simp [setHeader, headerGet, hk, ih]

theorem headerGet_setHeader_ne (hs : List (String × String)) (k v name : String)
    (h : ¬ (k == name) = true) : headerGet (setHeader hs k v) name = headerGet hs name := by
  induction hs with
  | nil => simp [setHeader, headerGet, h]
  | cons p rest ih =>
      obtain ⟨k0, v0⟩ := p
      by_cases hk : (k0 == k) = true
      · have hk0 : ¬ (k0 == name) = true := by
          simp only [beq_iff_eq] at hk h ⊢
          rw [hk]
          exact h
        simp [setHeader, headerGet, hk, hk0]
      · simp only [setHeader]
        rw [if_neg hk]
        by_cases hk0 : (k0 == name) = true
        · simp [headerGet, hk0]
        · simp [headerGet, hk0, ih]

theorem string_length_pos {s : String} (h : s ≠ "") : 0 < s.length := by
  rcases s with ⟨data⟩
  cases data with
  | nil => exact absurd rfl h
  | cons a as => simp [String.length]

theorem allowed_chars_eq :
    allowed_chars = lowercaseLetters ++ uppercaseLetters ++ digitChars ++ ['-', '_', '.'] := by
  rfl

theorem allowed_chars_contains_iff (c : Char) :
    allowed_chars.contains c = true ↔ specCharOk c := by
  rw [show allowed_chars.contains c = allowed_chars.elem c from rfl, List.elem_iff,
    allowed_chars_eq]
  simp only [List.mem_append, List.mem_cons, List.not_mem_nil, or_false, specCharOk]
  tauto

theorem is_valid_correlation_id_iff (s : String) :
    is_valid_correlation_id s = true ↔
      s ≠ "" ∧ s.length ≤ 128 ∧ ∀ c ∈ s.toList, specCharOk c := by
  unfold is_valid_correlation_id
  by_cases hs : s.isEmpty = true
  · have hs' : s = "" := (String.isEmpty_iff s).mp hs
    rw [if_pos hs]
    simp [hs']
  · have hs' : s ≠ "" := fun he => hs ((String.isEmpty_iff s).mpr he)
    have hpos : 0 < s.length := string_length_pos hs'
    rw [if_neg hs]
    by_cases h128 : s.length ≤ 128
    · rw [if_neg (by omega)]
      simp only [List.all_eq_true, allowed_chars_contains_iff]
      constructor
      · intro hall
        exact ⟨hs', h128, hall⟩
      · intro hall
        exact hall.2.2
    · rw [if_pos (Or.inr (by omega))]
      simp only [Bool.false_eq_true, false_iff]
      intro hall
      exact h128 hall.2.1

theorem firstCorrelationId_validate (reqHeaders : List (String × String)) :
    ∀ hs : List String,
      firstCorrelationId true reqHeaders hs =
        match firstCorrelationId false reqHeaders hs with
        | none => none
        | some v => if is_valid_correlation_id v then some v else none := by
  intro hs
  induction hs with
  | nil => rfl
  | cons h rest ih =>
      unfold firstCorrelationId
      cases headerGet reqHeaders h with
      | none => exact ih
      | some cid =>
          by_cases hc : (cid == "") = true
          · simp only [if_pos hc]
            exact ih
          · simp only [if_neg hc]
            by_cases hv : is_valid_correlation_id cid = true
            · simp [hv]
            · simp [hv]

theorem get_correlation_id_valid (rh : List (String × String)) (v : String)
    (hsup : firstCorrelationId false rh CORRELATION_ID_HEADERS = some v)
    (hv : is_valid_correlation_id v = true) :
    firstCorrelationId true rh CORRELATION_ID_HEADERS = some v := by
  rw [firstCorrelationId_validate rh CORRELATION_ID_HEADERS, hsup]
  simp [hv]

theorem get_correlation_id_invalid (rh : List (String × String)) (v : String)
    (hsup : firstCorrelationId false rh CORRELATION_ID_HEADERS = some v)
    (hv : is_valid_correlation_id v = false) :
    firstCorrelationId true rh CORRELATION_ID_HEADERS = none := by
  rw [firstCorrelationId_validate rh CORRELATION_ID_HEADERS, hsup]
  simp [hv]

/-! Claim theorems. -/

/-- Claim C2: for every service name absent from the registry listing,
`call_service` fails with `ServiceDiscoveryError` and the outbound request to
a target service endpoint is never attempted. -/
theorem call_service_unknown_service_fails_fast
    (agents : List Agent) (service_name method : String) (r : HttpResult Json)
    (h : ∀ a ∈ agents, a.name ≠ service_name) :
    call_service (.ok agents) service_name method r =
      (.error (.serviceDiscoveryError ("Service " ++ service_name ++ " not found")), false) := by
  have hfind := findAgentEndpoint_eq_none h
  simp [call_service, get_service_endpoint, hfind]

theorem call_service_unknown_service_fails_fast_witness :
    call_service (.ok [{ name := "svc-a", endpoint := "http://a:9001" }])
        "nonexistent-service" "run" (.response 200 (.ok []) "") =
      (.error (.serviceDiscoveryError
        ("Service " ++ "nonexistent-service" ++ " not found")), false) :=
  call_service_unknown_service_fails_fast
    [{ name := "svc-a", endpoint := "http://a:9001" }] "nonexistent-service" "run"
    (.response 200 (.ok []) "") (by decide)

/-- Claim C3: the stored `last_seen` never decreases: one update never lowers
it, an update with an older timestamp leaves it unchanged, a heartbeat is
accepted exactly when its timestamp is at least the stored value, and along
any sequence of heartbeats (in any delivery order) the stored value is
monotonically non-decreasing. -/
theorem last_seen_monotone :
    (∀ s ts : Nat, s ≤ update_last_seen s ts)
    ∧ (∀ s ts : Nat, ts < s → update_last_seen s ts = s)
    ∧ (∀ s ts : Nat, heartbeat_accepted s ts = true ↔ s ≤ ts)
    ∧ (∀ (s : Nat) (l1 l2 : List Nat),
        applyHeartbeats s l1 ≤ applyHeartbeats s (l1 ++ l2)) := by
  refine ⟨le_update_last_seen, ?_, ?_, ?_⟩
  · intro s ts h
    unfold update_last_seen
    rw [if_neg (by omega)]
  · intro s ts
    unfold heartbeat_accepted
    exact decide_eq_true_iff
  · intro s l1 l2
    rw [applyHeartbeats_append]
    exact le_applyHeartbeats l2 _

theorem last_seen_monotone_witness :
    update_last_seen 10 7 = 10
    ∧ (5 : Nat) ≤ update_last_seen 5 9
    ∧ applyHeartbeats 0 [3, 1] ≤ applyHeartbeats 0 ([3, 1] ++ [2]) :=
  ⟨last_seen_monotone.2.1 10 7 (by decide), last_seen_monotone.1 5 9,
   last_seen_monotone.2.2.2 0 [3, 1] [2]⟩

/-- Claim C7: the background heartbeat loop never lets an exception escape:
for every finite schedule of tick outcomes no exception is propagated, and the
loop terminates exactly when the schedule contains a cancellation. -/
theorem heartbeat_loop_never_propagates (trace : List TickOutcome) :
    (heartbeat_loop trace).1 = none
    ∧ ((heartbeat_loop trace).2 = true ↔ TickOutcome.cancelled ∈ trace) := by
  induction trace with
  | nil => simp [heartbeat_loop]
  | cons t rest ih => cases t <;> simp [heartbeat_loop, ih]

/-- Claim C9: heartbeat operations require prior registration: with `agent_id`
unset, `send_heartbeat` raises `HeartbeatError`, issues no HTTP request and
leaves the state unchanged; with the client not marked registered,
`start_heartbeat` raises `HeartbeatError` and leaves the state unchanged. -/
theorem heartbeat_requires_registration :
    (∀ (st : ClientState) (r : HttpResult Unit), st.agent_id = none →
        send_heartbeat st r =
          ((.error (.heartbeatError "Service not registered - cannot send heartbeat"), st),
           false))
    ∧ (∀ st : ClientState, st.registered = false →
        start_heartbeat st =
          (.error (.heartbeatError "Service must be registered before starting heartbeat"),
           st)) := by
  constructor
  · intro st r h
    unfold send_heartbeat
    rw [h]
  · intro st h
    unfold start_heartbeat
    rw [h]
    simp

theorem heartbeat_requires_registration_witness :
    send_heartbeat initialState .timeout =
      ((.error (.heartbeatError "Service not registered - cannot send heartbeat"),
        initialState), false)
    ∧ start_heartbeat initialState =
      (.error (.heartbeatError "Service must be registered before starting heartbeat"),
       initialState) :=
  ⟨heartbeat_requires_registration.1 initialState .timeout rfl,
   heartbeat_requires_registration.2 initialState rfl⟩

/-- Claim C5: endpoint resolution by name is deterministic: with a fixed
registry listing in which two or more instances share the requested name,
resolution returns the documented selection — the endpoint of the first
matching instance in listing order — and two invocations with no state change
between them return the same endpoint. -/
theorem resolve_endpoint_deterministic
    (agents : List Agent) (name : String) (a : Agent) (rest : List Agent)
    (hfilter : agents.filter (fun x => x.name == name) = a :: rest)
    (_hshared : rest ≠ []) :
    get_service_endpoint (.ok agents) name = .ok a.endpoint
    ∧ get_service_endpoint (.ok agents) name = get_service_endpoint (.ok agents) name := by
  have hfind := findAgentEndpoint_filter_head name a rest agents hfilter
  exact ⟨by simp [get_service_endpoint, hfind], rfl⟩

theorem resolve_endpoint_deterministic_witness :
    get_service_endpoint
      (.ok [{ name := "dup-svc", endpoint := "http://a:9001" },
            { name := "dup-svc", endpoint := "http://b:9002" }]) "dup-svc"
      = .ok "http://a:9001" :=
  (resolve_endpoint_deterministic
    [{ name := "dup-svc", endpoint := "http://a:9001" },
     { name := "dup-svc", endpoint := "http://b:9002" }] "dup-svc"
    { name := "dup-svc", endpoint := "http://a:9001" }
    [{ name := "dup-svc", endpoint := "http://b:9002" }] (by decide) (by decide)).1

/-- Claim C6: a registration whose name is empty, whose endpoint is empty or
whose endpoint is not a well-formed URL always fails with `ValidationError`
and leaves the store unchanged (no partial record); correspondingly, when the
registry answers the client with the validation-failure status 400, the
client's `register` raises `RegistrationError` and the client state (including
`_registered` and `agent_id`) is unchanged. -/
theorem register_validation_rejects
    (validUrl : String → Bool) (store : List StoreRecord) (nextId : Nat)
    (name endpoint : String)
    (h : name = "" ∨ endpoint = "" ∨ validUrl endpoint = false) :
    store_register validUrl store nextId name endpoint = (.error .validationError, store)
    ∧ ∀ (st : ClientState) (bp : BodyParse RegParse) (text : String),
        register st (.response 400 bp text) =
          (.error (.registrationError
            ("Registration failed with status " ++ toString 400 ++ ": " ++ text)), st) := by
  constructor
  · unfold store_register
    rw [if_pos h]
  · intro st bp text
    have h400 : ¬((400 : Nat) = 200 ∨ (400 : Nat) = 201) := by decide
    simp [register, h400]

theorem register_validation_rejects_witness :
    store_register (fun s => s.startsWith "http://") [] 0 "" "http://ok:1" =
      (.error .validationError, [])
    ∧ register initialState (.response 400 .contentTypeError "bad request") =
        (.error (.registrationError
          ("Registration failed with status " ++ toString 400 ++ ": " ++ "bad request")),
         initialState) :=
  ⟨(register_validation_rejects (fun s => s.startsWith "http://") [] 0 "" "http://ok:1"
      (Or.inl rfl)).1,
   (register_validation_rejects (fun s => s.startsWith "http://") [] 0 "" "http://ok:1"
      (Or.inl rfl)).2 initialState .contentTypeError "bad request"⟩

/-- Claim C1 (amended): the proxy call does not classify every failure cause
distinctly — a connection failure (`aiohttp.ClientError`), a non-success
remote status and a malformed response body served with a non-JSON content
type all surface as the same error class `AIWorkflowError` (they differ only
in message text); only a failed name resolution has the distinct class
`ServiceDiscoveryError`.  From the error class alone a caller can tell
resolution failure from call failure, but not the call-failure causes apart. -/
theorem call_service_error_kinds_collapse
    (listing : RegistryListOutcome) (service_name method : String)
    (e msg text : String) (status : Nat)
    (hres : get_service_endpoint listing service_name = .ok e) (hst : status ≠ 200) :
    excKindOf (call_service listing service_name method (.clientError msg)).1
      = some ExcKind.aiWorkflow
    ∧ excKindOf (call_service listing service_name method
        (.response status (.ok []) text)).1 = some ExcKind.aiWorkflow
    ∧ excKindOf (call_service listing service_name method
        (.response 200 .contentTypeError text)).1 = some ExcKind.aiWorkflow
    ∧ ∀ (agents : List Agent) (sname : String), (∀ a ∈ agents, a.name ≠ sname) →
        excKindOf (call_service (.ok agents) sname method (.clientError msg)).1
          = some ExcKind.serviceDiscovery := by
  refine ⟨?_, ?_, ?_, ?_⟩
  · simp [call_service, hres, excKindOf, Exc.kind]
  · simp [call_service, hres, hst, excKindOf, Exc.kind]
  · simp [call_service, hres, excKindOf, Exc.kind]
  · intro agents sname hn
    rw [call_service_unknown_service_fails_fast agents sname method (.clientError msg) hn]
    rfl

theorem call_service_error_kinds_collapse_witness :
    excKindOf (call_service (.ok [{ name := "svc", endpoint := "http://svc:1" }]) "svc" "run"
        (.clientError "connection refused")).1 = some ExcKind.aiWorkflow :=
  (call_service_error_kinds_collapse (.ok [{ name := "svc", endpoint := "http://svc:1" }])
    "svc" "run" "http://svc:1" "connection refused" "oops" 500 (by rfl) (by decide)).1

/-- Claim C1, as stated, is false: two different failure causes — a connection
failure and a non-success remote status — produce errors of the same class
`AIWorkflowError`, so the causes are not pairwise distinct error kinds. -/
theorem call_service_conn_vs_status_same_kind :
    excKindOf (call_service (.ok [{ name := "svc", endpoint := "http://svc:1" }]) "svc" "run"
        (.clientError "connection refused")).1
      = excKindOf (call_service (.ok [{ name := "svc", endpoint := "http://svc:1" }]) "svc"
        "run" (.response 500 (.ok []) "internal error")).1
    ∧ excKindOf (call_service (.ok [{ name := "svc", endpoint := "http://svc:1" }]) "svc"
        "run" (.clientError "connection refused")).1 = some ExcKind.aiWorkflow := by
  exact ⟨by decide, by decide⟩

/-- Claim C10 (amended): `register` succeeds exactly when the registry answers
with status 200 or 201 AND the response body parses as a well-formed
registration response with a UUID id; on success `agent_id` is set from the
body and the client becomes registered; on any other status and on a network
error it raises `RegistrationError` with the state unchanged.  (On a 2xx
response with a malformed body the parse error propagates instead, also with
the state unchanged.) -/
theorem register_success_iff (st : ClientState) (r : HttpResult RegParse) :
    (isOkB (register st r).1 = true ↔
      ∃ status id text, r = .response status (.ok (.valid id)) text
        ∧ (status = 200 ∨ status = 201))
    ∧ (∀ (status : Nat) (body : BodyParse RegParse) (text : String),
        r = .response status body text → ¬(status = 200 ∨ status = 201) →
        register st r = (.error (.registrationError
          ("Registration failed with status " ++ toString status ++ ": " ++ text)), st))
    ∧ (∀ msg : String, r = .clientError msg →
        register st r = (.error (.registrationError
          ("Network error during registration: " ++ msg)), st))
    ∧ (∀ (status : Nat) (id text : String),
        r = .response status (.ok (.valid id)) text → (status = 200 ∨ status = 201) →
        register st r =
          (.ok id, { st with agent_id := some id, registered := true })) := by
  refine ⟨⟨?_, ?_⟩, ?_, ?_, ?_⟩
  · intro hok
    cases r with
    | response status body text =>
        by_cases h2 : status = 200 ∨ status = 201
        · cases body with
          | ok v =>
              cases v with
              | valid id => exact ⟨status, id, text, rfl, h2⟩
              | badUUID id => simp [register, h2, isOkB] at hok
              | schemaError => simp [register, h2, isOkB] at hok
          | contentTypeError => simp [register, h2, isOkB] at hok
          | decodeError => simp [register, h2, isOkB] at hok
        · simp [register, h2, isOkB] at hok
    | clientError msg => simp [register, isOkB] at hok
    | timeout => simp [register, isOkB] at hok
  · rintro ⟨status, id, text, rfl, h2⟩
    simp [register, h2, isOkB]
  · rintro status body text rfl h2
    simp [register, h2]
  · rintro msg rfl
    simp [register]
  · rintro status id text rfl h2
    simp [register, h2]

theorem register_success_iff_witness :
    register initialState (.clientError "connection refused") =
      (.error (.registrationError
        ("Network error during registration: " ++ "connection refused")), initialState) :=
  (register_success_iff initialState (.clientError "connection refused")).2.2.1
    "connection refused" rfl

/-- Claim C10, as stated, is false: on a response with status 200 whose body
is not valid JSON, `register` does not succeed — the decode error propagates
(and it is not a `RegistrationError` either); the client state is unchanged. -/
theorem register_malformed_success_body :
    register initialState (.response 200 .decodeError "") =
      (.error .jsonDecodeError, initialState)
    ∧ isOkB (register initialState (.response 200 .decodeError "")).1 = false := by
  exact ⟨by rfl, by rfl⟩

/-- Claim C4: an externally supplied correlation identifier is accepted
exactly when it is a non-empty string of at most 128 characters drawn from
letters, digits, dash, underscore and dot; an invalid supplied identifier is
replaced with a freshly generated one, the request is never rejected, and the
response is still produced with the chosen identifier echoed. -/
theorem correlation_id_validation_spec :
    (∀ s : String, is_valid_correlation_id s = true ↔
        s ≠ "" ∧ s.length ≤ 128 ∧ ∀ c ∈ s.toList, specCharOk c)
    ∧ (∀ (headerName fresh : String) (reqHeaders appHeaders : List (String × String))
        (v : String), get_correlation_id_from_request false reqHeaders = some v →
        ((is_valid_correlation_id v = true →
            (dispatch true headerName fresh reqHeaders appHeaders).correlation_id = v)
          ∧ (is_valid_correlation_id v = false →
            (dispatch true headerName fresh reqHeaders appHeaders).correlation_id = fresh)))
    ∧ (∀ (validate : Bool) (headerName fresh : String)
        (reqHeaders appHeaders : List (String × String)),
        headerGet (dispatch validate headerName fresh reqHeaders appHeaders).response_headers
            headerName
          = some (dispatch validate headerName fresh reqHeaders appHeaders).correlation_id) := by
  refine ⟨is_valid_correlation_id_iff, ?_, ?_⟩
  · intro hn fresh rh ah v hsup
    unfold get_correlation_id_from_request at hsup
    constructor
    · intro hv
      have h1 := get_correlation_id_valid rh v hsup hv
      have hvne : ¬ (v == "") = true := by
        simp only [beq_iff_eq]
        intro he
        subst he
        simp [is_valid_correlation_id] at hv
      simp [dispatch, get_correlation_id_from_request, h1, hvne]
    · intro hv
      have h1 := get_correlation_id_invalid rh v hsup hv
      simp [dispatch, get_correlation_id_from_request, h1]
  · intro validate hn fresh rh ah
    simp [dispatch, headerGet_setHeader]

theorem correlation_id_validation_spec_witness :
    is_valid_correlation_id "req-12345.test_1" = true
    ∧ (dispatch true "X-Correlation-ID" "generated-uuid"
        [("X-Correlation-ID", "bad id!!")] []).correlation_id = "generated-uuid" :=
  ⟨(correlation_id_validation_spec.1 "req-12345.test_1").mpr (by decide),
   (correlation_id_validation_spec.2.1 "X-Correlation-ID" "generated-uuid"
      [("X-Correlation-ID", "bad id!!")] [] "bad id!!" (by rfl)).2 (by rfl)⟩

/-- Claim C8 (amended): on the incoming side the middleware always echoes the
correlation id it chose in the response headers, and generates a fresh one
when the request supplies none; on the outgoing side the client's requests
carry the `X-Correlation-ID` header exactly when a non-empty correlation id is
available in context — when none is available, the outgoing headers are left
without a correlation identifier header (none is generated for outgoing
requests). -/
theorem correlation_header_propagation :
    (∀ (validate : Bool) (headerName fresh : String)
        (reqHeaders appHeaders : List (String × String)),
        headerGet (dispatch validate headerName fresh reqHeaders appHeaders).response_headers
            headerName
          = some (dispatch validate headerName fresh reqHeaders appHeaders).correlation_id)
    ∧ (∀ (validate : Bool) (headerName fresh : String)
        (reqHeaders appHeaders : List (String × String)),
        get_correlation_id_from_request validate reqHeaders = none →
        (dispatch validate headerName fresh reqHeaders appHeaders).correlation_id = fresh)
    ∧ (∀ (auth : Option String) (base : List (String × String)) (c : String), c ≠ "" →
        headerGet (outgoingHeaders (some c) auth base) "X-Correlation-ID" = some c)
    ∧ (∀ (auth : Option String) (base : List (String × String)),
        headerGet (outgoingHeaders none auth base) "X-Correlation-ID"
          = headerGet base "X-Correlation-ID") := by
  refine ⟨?_, ?_, ?_, ?_⟩
  · intro validate hn fresh rh ah
    simp [dispatch, headerGet_setHeader]
  · intro validate hn fresh rh ah h
    simp [dispatch, h]
  · intro auth base c hc
    have hcne : ¬ (c == "") = true := by
      simp only [beq_iff_eq]
      exact hc
    cases auth with
    | none => simp [outgoingHeaders, inject_correlation_id_header, hcne, headerGet_setHeader]
    | some t =>
        simp only [outgoingHeaders, inject_correlation_id_header]
        rw [if_neg hcne]
        rw [headerGet_setHeader_ne _ _ _ _ (by decide), headerGet_setHeader]
  · intro auth base
    cases auth with
    | none => rfl
    | some t =>
        simp only [outgoingHeaders, inject_correlation_id_header]
        exact headerGet_setHeader_ne _ _ _ _ (by decide)

theorem correlation_header_propagation_witness :
    headerGet (outgoingHeaders (some "req-abc-123") none
        [("Content-Type", "application/json")]) "X-Correlation-ID" = some "req-abc-123"
    ∧ (dispatch true "X-Correlation-ID" "fresh-gen" [] []).correlation_id = "fresh-gen" :=
  ⟨correlation_header_propagation.2.2.1 none [("Content-Type", "application/json")]
      "req-abc-123" (by decide),
   correlation_header_propagation.2.1 true "X-Correlation-ID" "fresh-gen" [] [] (by rfl)⟩

/-- Claim C8, as stated, is false: an outgoing client request built with no
correlation id in context (here `register`-style headers) carries no
correlation identifier header at all — no identifier is generated for
outgoing requests when the context has none. -/
theorem outgoing_headers_missing_correlation_id :
    headerGet (outgoingHeaders none none [("Content-Type", "application/json")])
      "X-Correlation-ID" = none := by
  rfl

end AIWorkflow
